import Mathlib

/-!
# Verification of the gopher-uptime coordination-and-settlement engine

Shallow embedding of the Go sources of `datmedevil17/goper-uptime-decent`:

* `internal/models/models.go` — the persisted entities (`Validator`,
  `WebsiteTick`, `PayoutTransaction`, `Website`) and the settlement worker
  (`PayoutWorker.processPayoutRequest`, `waitForConfirmation`);
* `internal/handlers/user/handler.go` — the payout request path
  (`Handler.RequestPayout`);
* `cmd/hub/main.go` — the hub coordinator (`handleValidate`,
  `createValidateCallback`, `startMonitoring`, `COST_PER_VALIDATION`);
* `cmd/api/main.go` (validator agent half) — `validateWebsite`.

Monetary amounts (`float64` columns `pending_payouts`, `amount`, `latency`)
are embedded as `ℚ`.  The database is embedded as an explicit `Store` value;
GORM transactions become branches that either apply every write of the
transaction or return the store unchanged (a rollback).  Fallible steps
(queue publish, row update, commit, record creation, the Solana transfer,
confirmation polling) are driven by explicit oracle inputs, so every
error-handling branch of the Go code is a reachable branch of the model.
UUID correlation ids (`uuid.New()` in the dispatch loop) are embedded as a
fresh-`Nat` counter.
-/

namespace Uptime

/-- `models.Validator` — the persisted validator row (`id`, `public_key`,
`pending_payouts`); the location/ip columns play no role in any claim. -/
structure Validator where
  id : String
  publicKey : String
  pendingPayouts : ℚ
  deriving DecidableEq, Repr

/-- `models.WebsiteTick` — one immutable probe result row. -/
structure WebsiteTick where
  id : String
  websiteId : String
  validatorId : String
  status : String
  latency : ℚ
  deriving DecidableEq, Repr

/-- `models.PayoutTransaction` — the persisted settlement record. -/
structure PayoutTransaction where
  id : String
  validatorId : String
  amount : ℚ
  status : String
  txSignature : String
  errorMessage : String
  deriving DecidableEq, Repr

/-- `models.Website` — a monitored target (`id`, `url`, `disabled`). -/
structure Website where
  id : String
  url : String
  disabled : Bool
  deriving DecidableEq, Repr

/-- The relational store consumed by the core: validator rows, tick rows and
settlement records.  Rows are kept in insertion order. -/
structure Store where
  validators : List Validator
  ticks : List WebsiteTick
  payoutTxs : List PayoutTransaction
  deriving DecidableEq, Repr

/-- `SELECT * FROM Validator WHERE id = ? LIMIT 1` (GORM `First`). -/
def findValidatorById (s : Store) (vid : String) : Option Validator :=
  s.validators.find? (fun v => v.id == vid)

/-- `SELECT * FROM PayoutTransaction WHERE id = ? LIMIT 1`. -/
def findPayoutTx (s : Store) (pid : String) : Option PayoutTransaction :=
  s.payoutTxs.find? (fun p => p.id == pid)

/-- `UPDATE Validator SET pending_payouts = pending_payouts + amt WHERE id = vid`
(the GORM `UpdateColumn` with `gorm.Expr("pending_payouts + ?", amt)`). -/
def creditValidator (s : Store) (vid : String) (amt : ℚ) : Store :=
  { s with validators := s.validators.map (fun v =>
      if v.id == vid then { v with pendingPayouts := v.pendingPayouts + amt } else v) }

/-- `UPDATE Validator SET pending_payouts = amt WHERE id = vid`
(the `tx.Model(&validator).Update("pending_payouts", 0)` step). -/
def setPendingPayouts (s : Store) (vid : String) (amt : ℚ) : Store :=
  { s with validators := s.validators.map (fun v =>
      if v.id == vid then { v with pendingPayouts := amt } else v) }

/-- `INSERT INTO WebsiteTick` (`tx.Create(&tick)`). -/
def insertTick (s : Store) (t : WebsiteTick) : Store :=
  { s with ticks := s.ticks ++ [t] }

/-- `INSERT INTO PayoutTransaction` (`w.db.Create(txRecord)`). -/
def insertPayoutTx (s : Store) (p : PayoutTransaction) : Store :=
  { s with payoutTxs := s.payoutTxs ++ [p] }

/-- `w.db.Model(txRecord).Updates(map{...})` — update only the supplied
columns of every row whose id matches. -/
def updatePayoutTx (s : Store) (pid : String) (status : String)
    (errMsg txSig : Option String) : Store :=
  { s with payoutTxs := s.payoutTxs.map (fun p =>
      if p.id == pid then
        { p with status := status,
                 errorMessage := errMsg.getD p.errorMessage,
                 txSignature := txSig.getD p.txSignature }
      else p) }

/-! ## The payout request path — `Handler.RequestPayout`
(`internal/handlers/user/handler.go` lines 40–131)

The handler opens a GORM transaction, locks the validator row
(`FOR UPDATE`), and:
* missing row → rollback, 404;
* `pending_payouts <= 0` → rollback, `{"status":"cleared","amount":0}`;
* otherwise it marshals `{validator_id, amount, public_key}`, publishes it
  to the durable `payout_queue` (an effect OUTSIDE the DB transaction),
  then sets `pending_payouts = 0` inside the transaction and commits.

The queue publish, the balance update and the commit can each fail; the
oracle `RequestFailures` selects which.  Crucially, a publish that succeeded
is not undone by a later rollback. -/

/-- The queue message `services.PayoutRequest` =
handler `PayoutRequest` (`validator_id`, `amount`, `public_key`). -/
structure PayoutRequest where
  validatorId : String
  amount : ℚ
  publicKey : String
  deriving DecidableEq, Repr

/-- Failure oracle for the three fallible steps of `RequestPayout` that
follow the balance check. -/
structure RequestFailures where
  publishFails : Bool
  updateFails : Bool
  commitFails : Bool
  deriving DecidableEq, Repr

/-- The JSON reply of `RequestPayout` reduced to what the claims mention:
either an error response, or a success body `{"status": ..., "amount": ...}`. -/
inductive PayoutResponse where
  | notFound
  | queueFailed
  | updateFailed
  | commitFailed
  | success (status : String) (amount : ℚ)
  deriving DecidableEq, Repr

/-- `Handler.RequestPayout` (`handler.go` lines 40–131): returns the store
after the request, the queue after the request (messages are appended at the
tail), and the HTTP response. -/
def requestPayout (s : Store) (queue : List PayoutRequest) (vid : String)
    (f : RequestFailures) : Store × List PayoutRequest × PayoutResponse :=
  match findValidatorById s vid with
  | none => (s, queue, .notFound)
  | some validator =>
    if validator.pendingPayouts ≤ 0 then
      (s, queue, .success "cleared" 0)
    else
      let req : PayoutRequest :=
        ⟨validator.id, validator.pendingPayouts, validator.publicKey⟩
      if f.publishFails then
        (s, queue, .queueFailed)
      else
        let queue' := queue ++ [req]
        if f.updateFails then
          (s, queue', .updateFailed)
        else if f.commitFails then
          (s, queue', .commitFailed)
        else
          (setPendingPayouts s vid 0, queue', .success "queued" validator.pendingPayouts)

/-! ## The settlement worker — `PayoutWorker.processPayoutRequest`
(`internal/models/models.go`, `services` half, lines 184–348)

The worker consumes one message at a time with manual acknowledgment.
`waitForConfirmation` polls `GetSignatureStatuses` on a 2-second ticker
until the 30-second context deadline; the list of `PollStatus` values is
the sequence of observations the ticker delivers before the deadline (its
length is therefore bounded by `confirmationTimeoutSeconds /
pollIntervalSeconds`), and an exhausted list is the `ctx.Done()` timeout. -/

/-- `30 * time.Second`, the confirmation timeout passed by
`processPayoutRequest`. -/
def confirmationTimeoutSeconds : Nat := 30

/-- `time.NewTicker(2 * time.Second)` inside `waitForConfirmation`. -/
def pollIntervalSeconds : Nat := 2

/-- One observation of `GetSignatureStatuses` for the submitted signature. -/
inductive PollStatus where
  /-- the RPC call itself returned an error — logged, loop continues -/
  | statusError
  /-- no status known for the signature yet — loop continues -/
  | missing
  /-- status present, not finalized, no error — loop continues -/
  | notFinalized
  /-- `ConfirmationStatusFinalized` -/
  | finalized
  /-- status present with `Err != nil` -/
  | txFailed (e : String)
  deriving DecidableEq, Repr

/-- `PayoutWorker.waitForConfirmation`: returns `(confirmed, error)`.
Finalized → `(true, none)`; an on-chain error → `(false, some ...)`;
running out of observations is the context timeout → `(false, some
"confirmation timeout")`. -/
def waitForConfirmation : List PollStatus → Bool × Option String
  | [] => (false, some "confirmation timeout")
  | p :: rest =>
    match p with
    | .finalized => (true, none)
    | .txFailed e => (false, some ("transaction failed: " ++ e))
    | _ => waitForConfirmation rest

/-- The three acknowledgment outcomes of the worker:
`delivery.Ack(false)`, `delivery.Nack(false, true)` (requeue),
`delivery.Nack(false, false)` (permanent reject). -/
inductive AckAction where
  | ack
  | nackRequeue
  | nackDrop
  deriving DecidableEq, Repr

/-- Oracle for the fallible steps of one `processPayoutRequest` run:
the fresh uuid for the settlement record, whether `w.db.Create(txRecord)`
fails, the outcome of `executeSolanaTransfer` (error message or signature),
and the confirmation-poll observations. -/
structure WorkerOracle where
  recordId : String
  createRecordFails : Bool
  transferResult : Except String String
  polls : List PollStatus
  deriving Repr

/-- `PayoutWorker.processPayoutRequest` (`models.go` services half, lines
184–256).  `body = none` is a malformed payload (`json.Unmarshal` error).
Returns the store after the run and the acknowledgment action. -/
def processPayoutRequest (s : Store) (body : Option PayoutRequest)
    (o : WorkerOracle) : Store × AckAction :=
  match body with
  | none => (s, .nackDrop)
  | some req =>
    if o.createRecordFails then
      (s, .nackRequeue)
    else
      let s1 := insertPayoutTx s
        ⟨o.recordId, req.validatorId, req.amount, "processing", "", ""⟩
      match o.transferResult with
      | .error e =>
          let s2 := updatePayoutTx s1 o.recordId "failed" (some e) none
          let s3 := creditValidator s2 req.validatorId req.amount
          (s3, .nackDrop)
      | .ok sig =>
          let wc := waitForConfirmation o.polls
          if wc.2.isSome || !wc.1 then
            (updatePayoutTx s1 o.recordId "failed"
               (some "Transaction confirmation timeout") (some sig), .nackDrop)
          else
            (updatePayoutTx s1 o.recordId "completed" none (some sig), .ack)

/-! ## The hub coordinator — `cmd/hub/main.go` -/

/-- `COST_PER_VALIDATION = 100` lamports (`cmd/hub/main.go` line 18). -/
def costPerValidation : ℚ := 100

/-- The `validate` reply payload `ValidateIncoming`
(`{callbackId, status, latency, validatorId, websiteId, signedMessage}`).
The uuid correlation id is embedded as a `Nat`. -/
structure ValidateIncoming where
  callbackId : Nat
  status : String
  latency : ℚ
  validatorId : String
  websiteId : String
  signedMessage : String
  deriving DecidableEq, Repr

/-- Failure oracle for the GORM transaction inside the validate callback:
the tick insert, the payout update and the commit can each fail, and each
failure rolls the whole transaction back. -/
structure TickTxFailures where
  createTickFails : Bool
  updatePayoutsFails : Bool
  commitFails : Bool
  deriving DecidableEq, Repr

/-- The failure-free transaction oracle. -/
def noTickFailures : TickTxFailures := ⟨false, false, false⟩

/-- The closure returned by `Hub.createValidateCallback(websiteID,
validatorPublicKey)` (`cmd/hub/main.go` lines 269–321): inside one GORM
transaction it inserts a `WebsiteTick` for `validate.ValidatorID` and adds
`COST_PER_VALIDATION` to that same validator's `pending_payouts`; any
failure rolls back.  Note the captured `validatorPublicKey` is never used
by the body (the signature check is a TODO). -/
def runValidateCallback (websiteId validatorPublicKey : String) (tickId : String)
    (payload : ValidateIncoming) (f : TickTxFailures) (s : Store) : Store :=
  if f.createTickFails || f.updatePayoutsFails || f.commitFails then s
  else
    creditValidator
      (insertTick s
        ⟨tickId, websiteId, payload.validatorId, payload.status, payload.latency⟩)
      payload.validatorId costPerValidation

/-- The registration data a `createValidateCallback` closure captures. -/
structure CallbackReg where
  websiteId : String
  validatorPublicKey : String
  deriving DecidableEq, Repr

/-- The hub's `callbacks map[string]func(IncomingMessage)`, embedded as an
association list from correlation id to captured registration data. -/
abbrev CallbackTable := List (Nat × CallbackReg)

/-- `h.callbacks[validate.CallbackID]` — map lookup. -/
def lookupCallback (t : CallbackTable) (cid : Nat) : Option CallbackReg :=
  (t.find? (fun e => e.1 == cid)).map (fun e => e.2)

/-- `delete(h.callbacks, validate.CallbackID)` — map key removal. -/
def removeCallback (t : CallbackTable) (cid : Nat) : CallbackTable :=
  t.filter (fun e => !(e.1 == cid))

/-- The hub state touched by `handleValidate`: the callback table and the
database. -/
structure HubState where
  callbacks : CallbackTable
  store : Store
  deriving DecidableEq, Repr

/-- `Hub.handleValidate` (`cmd/hub/main.go` lines 166–189): look up the
handler for the reply's correlation id; if present invoke it and then delete
the id, otherwise do nothing.  Also returns the list of handler
registrations invoked by this call (its length is the number of handler
invocations). -/
def handleValidate (h : HubState) (payload : ValidateIncoming) (tickId : String)
    (f : TickTxFailures) : HubState × List CallbackReg :=
  match lookupCallback h.callbacks payload.callbackId with
  | none => (h, [])
  | some reg =>
      (⟨removeCallback h.callbacks payload.callbackId,
        runValidateCallback reg.websiteId reg.validatorPublicKey tickId payload f h.store⟩,
       [reg])

/-- One handled probe reply for the credit-accumulation property: the
registration data of the invoked callback, the fresh tick uuid, and the
reply payload. -/
structure ReplyEvent where
  websiteId : String
  registeredPk : String
  tickId : String
  payload : ValidateIncoming
  deriving DecidableEq, Repr

/-- A sequence of successfully recorded probe results: each reply is handled
by its callback with a failure-free transaction. -/
def processReplies (s : Store) : List ReplyEvent → Store
  | [] => s
  | e :: rest =>
      processReplies
        (runValidateCallback e.websiteId e.registeredPk e.tickId e.payload
          noTickFailures s) rest

/-! ## The dispatch loop — `Hub.startMonitoring`
(`cmd/hub/main.go` lines 204–267)

One tick of the 60-second loop: fetch the websites with `disabled = false`
(`continue` if none), snapshot the connected validators (`continue` if
none), then for every website × validator pair generate a fresh correlation
id (`uuid.New()`, embedded as the next counter value), register the
callback, and send the `{url, callbackId, websiteId}` task.  The cycle is
recorded as the ordered list of register/send events it performs. -/

/-- An entry of the hub's live-connection registry `map[string]*ValidatorConnection`. -/
structure ValidatorConnection where
  validatorId : String
  publicKey : String
  deriving DecidableEq, Repr

/-- The outgoing `validate` task data `{url, callbackId, websiteId}`. -/
structure ValidateTask where
  url : String
  callbackId : Nat
  websiteId : String
  deriving DecidableEq, Repr

/-- One observable step of a dispatch cycle, in program order. -/
inductive DispatchEvent where
  /-- `h.callbacks[callbackID] = h.createValidateCallback(website.ID, validator.PublicKey)` -/
  | register (cid : Nat) (reg : CallbackReg)
  /-- `validator.Conn.WriteJSON(msg)` for the given validator id -/
  | send (validatorId : String) (task : ValidateTask)
  deriving DecidableEq, Repr

/-- The inner `for _, validator := range validators` loop for one website:
each iteration consumes one fresh correlation id, registers the callback,
then sends the task. -/
def dispatchToValidators (w : Website) (vs : List ValidatorConnection) (n : Nat) :
    List DispatchEvent × Nat :=
  match vs with
  | [] => ([], n)
  | v :: rest =>
      let tail := dispatchToValidators w rest (n + 1)
      (.register n ⟨w.id, v.publicKey⟩ ::
         .send v.validatorId ⟨w.url, n, w.id⟩ :: tail.1,
       tail.2)

/-- The outer `for _, website := range websites` loop. -/
def dispatchWebsites (ws : List Website) (vs : List ValidatorConnection) (n : Nat) :
    List DispatchEvent × Nat :=
  match ws with
  | [] => ([], n)
  | w :: rest =>
      let head := dispatchToValidators w vs n
      let tail := dispatchWebsites rest vs head.2
      (head.1 ++ tail.1, tail.2)

/-- One tick of `Hub.startMonitoring`: filter the active websites, short
circuit if either set is empty, otherwise run the nested loops.  `n` is the
fresh-correlation-id counter. -/
def dispatchCycle (websites : List Website) (vs : List ValidatorConnection)
    (n : Nat) : List DispatchEvent × Nat :=
  let active := websites.filter (fun w => !w.disabled)
  if active.isEmpty then ([], n)
  else if vs.isEmpty then ([], n)
  else dispatchWebsites active vs n

/-- Is this event a registration under correlation id `c`? -/
def isRegisterFor (c : Nat) : DispatchEvent → Bool
  | .register c' _ => c' == c
  | .send _ _ => false

/-- Is this event a send whose task carries correlation id `c`? -/
def isSendFor (c : Nat) : DispatchEvent → Bool
  | .send _ t => t.callbackId == c
  | .register _ _ => false

/-- Is this event a probe-task send for website `wid` to validator `vid`? -/
def isSendPair (wid vid : String) : DispatchEvent → Bool
  | .send v t => v == vid && t.websiteId == wid
  | .register _ _ => false

/-- Registrations under id `c` in an event list. -/
def regCount (evs : List DispatchEvent) (c : Nat) : Nat :=
  evs.countP (isRegisterFor c)

/-- Sends carrying id `c` in an event list. -/
def sendCount (evs : List DispatchEvent) (c : Nat) : Nat :=
  evs.countP (isSendFor c)

/-- Sends of a probe for website `wid` to validator `vid`. -/
def sendPairCount (evs : List DispatchEvent) (wid vid : String) : Nat :=
  evs.countP (isSendPair wid vid)

/-! ## The validator agent — `validateWebsite`
(`cmd/api/main.go`, validator half, lines 268–311)

The agent performs `client.Get(data.URL)` with `Timeout: 10 * time.Second`;
`resp = some code` embeds a response with that status code, `resp = none`
embeds `err != nil` (transport failure or the 10s client timeout firing).
`elapsedMs` is `time.Since(startTime).Milliseconds()`, which is non-negative
(monotonic clock), so it is embedded as a `Nat`. -/

/-- `Timeout: 10 * time.Second` on the agent's HTTP client, in ms. -/
def httpClientTimeoutMs : Nat := 10000

/-- `ValidatorClient.validateWebsite`: classify the probe outcome and build
the reply payload.  `signature` stands for the base64 ed25519 signature the
agent computes over "Replying to " ++ the correlation id. -/
def validateWebsite (validatorId : String) (task : ValidateTask)
    (resp : Option Nat) (elapsedMs : Nat) (signature : String) : ValidateIncoming :=
  let status := match resp with
    | some code => if code == 200 then "Good" else "Bad"
    | none => "Bad"
  ⟨task.callbackId, status, (elapsedMs : ℚ), validatorId, task.websiteId, signature⟩

/-!
# Theorems
-/

/-! ### Generic lookup lemmas

A `WHERE id = ?` update commutes with a `WHERE id = ?` lookup: mapping a
row-transformer that preserves the lookup predicate over the table moves
inside `find?`. -/

theorem find_map_comm {α : Type} (q : α → Bool) (f : α → α)
    (hf : ∀ a, q (f a) = q a) :
    ∀ l : List α, (l.map f).find? q = (l.find? q).map f := by
  intro l
  induction l with
  | nil => simp
  | cons a l ih =>
      by_cases h : q a = true
      · simp [List.find?_cons, hf a, h]
      · simp only [Bool.not_eq_true] at h
        simp [List.find?_cons, hf a, h, ih]

theorem findValidatorById_setPendingPayouts (s : Store) (vid vid' : String) (a : ℚ) :
    findValidatorById (setPendingPayouts s vid a) vid' =
      (findValidatorById s vid').map
        (fun v => if v.id == vid then { v with pendingPayouts := a } else v) := by
  unfold findValidatorById setPendingPayouts
  refine find_map_comm _ _ (fun v => ?_) s.validators
  by_cases h : v.id == vid <;> simp [h]

theorem findValidatorById_creditValidator (s : Store) (vid vid' : String) (amt : ℚ) :
    findValidatorById (creditValidator s vid amt) vid' =
      (findValidatorById s vid').map
        (fun v => if v.id == vid
                  then { v with pendingPayouts := v.pendingPayouts + amt } else v) := by
  unfold findValidatorById creditValidator
  refine find_map_comm _ _ (fun v => ?_) s.validators
  by_cases h : v.id == vid <;> simp [h]

theorem findPayoutTx_updatePayoutTx (s : Store) (pid pid' : String)
    (st : String) (em ts : Option String) :
    findPayoutTx (updatePayoutTx s pid st em ts) pid' =
      (findPayoutTx s pid').map
        (fun p => if p.id == pid
                  then { p with status := st,
                                errorMessage := em.getD p.errorMessage,
                                txSignature := ts.getD p.txSignature }
                  else p) := by
  unfold findPayoutTx updatePayoutTx
  refine find_map_comm _ _ (fun p => ?_) s.payoutTxs
  by_cases h : p.id == pid <;> simp [h]

theorem findValidatorById_id (s : Store) (vid : String) (v : Validator)
    (h : findValidatorById s vid = some v) : v.id = vid := by
  unfold findValidatorById at h
  have := List.find?_some h
  simpa using this

theorem findValidatorById_insertPayoutTx (s : Store) (p : PayoutTransaction)
    (vid : String) :
    findValidatorById (insertPayoutTx s p) vid = findValidatorById s vid := rfl

theorem findValidatorById_insertTick (s : Store) (t : WebsiteTick) (vid : String) :
    findValidatorById (insertTick s t) vid = findValidatorById s vid := rfl

theorem findValidatorById_updatePayoutTx (s : Store) (pid st : String)
    (em ts : Option String) (vid : String) :
    findValidatorById (updatePayoutTx s pid st em ts) vid = findValidatorById s vid := rfl

theorem findPayoutTx_insertPayoutTx_fresh (s : Store) (p : PayoutTransaction)
    (pid : String) (hpid : p.id = pid) (h : findPayoutTx s pid = none) :
    findPayoutTx (insertPayoutTx s p) pid = some p := by
  unfold findPayoutTx at h
  unfold findPayoutTx insertPayoutTx
  simp only [List.find?_append, h]
  simp [hpid]

theorem findPayoutTx_creditValidator (s : Store) (vid : String) (amt : ℚ)
    (pid : String) :
    findPayoutTx (creditValidator s vid amt) pid = findPayoutTx s pid := rfl

theorem findPayoutTx_setPendingPayouts (s : Store) (vid : String) (a : ℚ)
    (pid : String) :
    findPayoutTx (setPendingPayouts s vid a) pid = findPayoutTx s pid := rfl

/-- Shared helper: the failure-free success path of `RequestPayout` with a
positive balance zeroes the row and appends exactly one queue message. -/
theorem requestPayout_success_eq (s : Store) (q : List PayoutRequest)
    (vid : String) (f : RequestFailures) (v : Validator)
    (hv : findValidatorById s vid = some v) (hpos : 0 < v.pendingPayouts)
    (hp : f.publishFails = false) (hu : f.updateFails = false)
    (hc : f.commitFails = false) :
    requestPayout s q vid f =
      (setPendingPayouts s vid 0, q ++ [⟨v.id, v.pendingPayouts, v.publicKey⟩],
       .success "queued" v.pendingPayouts) := by
  have hns : ¬ v.pendingPayouts ≤ 0 := not_le.mpr hpos
  unfold requestPayout
  rw [hv]
  simp [hns, hp, hu, hc]

/-! ### C6 and C1 — the payout request path -/

/-- **C6.**  For every validator whose pending credit is 0, a settlement
request is a no-op: it returns a "cleared" status with amount 0, enqueues no
`SettlementRequest`, and leaves the validator's stored state unchanged
(the transaction is rolled back before any write). -/
theorem requestPayout_zero_credit_noop (s : Store) (q : List PayoutRequest)
    (vid : String) (f : RequestFailures) (v : Validator)
    (hv : findValidatorById s vid = some v) (h0 : v.pendingPayouts = 0) :
    requestPayout s q vid f = (s, q, .success "cleared" 0) := by
  unfold requestPayout
  rw [hv]
  simp [h0]

/-- Witness for C6: a concrete validator with zero pending credit. -/
theorem requestPayout_zero_credit_noop_witness :
    findValidatorById ⟨[⟨"v1", "pk1", 0⟩], [], []⟩ "v1" = some ⟨"v1", "pk1", 0⟩ ∧
    requestPayout ⟨[⟨"v1", "pk1", 0⟩], [], []⟩ [] "v1" ⟨false, false, false⟩ =
      (⟨[⟨"v1", "pk1", 0⟩], [], []⟩, [], .success "cleared" 0) :=
  ⟨by decide,
   requestPayout_zero_credit_noop _ _ _ _ ⟨"v1", "pk1", 0⟩ (by decide) (by decide)⟩

/-- **C1, counterexample.**  The claim says the zero-and-enqueue step of
`RequestPayout` is one atomic unit — "no execution leaves a message enqueued
while the credit is not zeroed".  In the code the RabbitMQ publish happens
BEFORE (and outside) the database transaction that zeroes the balance, so an
execution in which the commit fails after a successful publish leaves the
message enqueued while the credit is untouched: with a validator holding
credit 5 and a failing commit, the queue gains one message of amount 5 while
`pending_payouts` stays 5. -/
theorem requestPayout_not_atomic_counterexample :
    (requestPayout ⟨[⟨"v1", "pk1", 5⟩], [], []⟩ [] "v1" ⟨false, false, true⟩).2.1 =
      [⟨"v1", 5, "pk1"⟩] ∧
    findValidatorById
        (requestPayout ⟨[⟨"v1", "pk1", 5⟩], [], []⟩ [] "v1" ⟨false, false, true⟩).1 "v1" =
      some ⟨"v1", "pk1", 5⟩ := by
  constructor <;> decide

/-- **C1, amended.**  With pending credit `B > 0`: (a) in every execution in
which the publish, the balance update and the commit all succeed,
`RequestPayout` zeroes the validator's credit and enqueues exactly one
`SettlementRequest` carrying amount `B` and the validator's public key, and
(b) in every execution the credit is zeroed only if the message was enqueued
(the converse direction of the claimed atomicity — a message may be enqueued
while the credit is not zeroed when the update or commit fails after the
publish, as the counterexample shows). -/
theorem requestPayout_queued (s : Store) (q : List PayoutRequest) (vid : String)
    (f : RequestFailures) (v : Validator)
    (hv : findValidatorById s vid = some v) (hpos : 0 < v.pendingPayouts)
    (hp : f.publishFails = false) (hu : f.updateFails = false)
    (hc : f.commitFails = false) :
    (requestPayout s q vid f =
      (setPendingPayouts s vid 0, q ++ [⟨v.id, v.pendingPayouts, v.publicKey⟩],
       .success "queued" v.pendingPayouts)
     ∧ findValidatorById (setPendingPayouts s vid 0) vid =
        some { v with pendingPayouts := 0 })
    ∧ ∀ f' : RequestFailures,
        (requestPayout s q vid f').1 ≠ s →
        (requestPayout s q vid f').2.1 = q ++ [⟨v.id, v.pendingPayouts, v.publicKey⟩] := by
  have hns : ¬ v.pendingPayouts ≤ 0 := not_le.mpr hpos
  constructor
  · constructor
    · exact requestPayout_success_eq s q vid f v hv hpos hp hu hc
    · rw [findValidatorById_setPendingPayouts, hv]
      have hid : v.id = vid := findValidatorById_id s vid v hv
      simp [hid]
  · intro f' hne
    unfold requestPayout at hne ⊢
    rw [hv] at hne ⊢
    by_cases h1 : f'.publishFails = true
    · simp [hns, h1] at hne
    · simp only [Bool.not_eq_true] at h1
      by_cases h2 : f'.updateFails = true
      · simp [hns, h1, h2]
      · simp only [Bool.not_eq_true] at h2
        by_cases h3 : f'.commitFails = true
        · simp [hns, h1, h2, h3]
        · simp only [Bool.not_eq_true] at h3
          simp [hns, h1, h2, h3]

/-- Witness for the amended C1: a concrete validator with credit 5 and a
failure-free execution. -/
theorem requestPayout_queued_witness :
    findValidatorById ⟨[⟨"v1", "pk1", 5⟩], [], []⟩ "v1" = some ⟨"v1", "pk1", 5⟩ ∧
    ((requestPayout ⟨[⟨"v1", "pk1", 5⟩], [], []⟩ [] "v1" ⟨false, false, false⟩ =
        (setPendingPayouts ⟨[⟨"v1", "pk1", 5⟩], [], []⟩ "v1" 0,
         [⟨"v1", 5, "pk1"⟩], .success "queued" 5)
      ∧ findValidatorById (setPendingPayouts ⟨[⟨"v1", "pk1", 5⟩], [], []⟩ "v1" 0) "v1" =
          some ⟨"v1", "pk1", 0⟩)
     ∧ ∀ f' : RequestFailures,
        (requestPayout ⟨[⟨"v1", "pk1", 5⟩], [], []⟩ [] "v1" f').1 ≠
            ⟨[⟨"v1", "pk1", 5⟩], [], []⟩ →
        (requestPayout ⟨[⟨"v1", "pk1", 5⟩], [], []⟩ [] "v1" f').2.1 =
          [⟨"v1", 5, "pk1"⟩]) :=
  ⟨by decide,
   requestPayout_queued _ _ _ _ ⟨"v1", "pk1", 5⟩ (by decide) (by decide)
     (by decide) (by decide) (by decide)⟩

/-! ### C2 and C5 — the settlement worker -/

/-- **C2.**  When the external transfer submission fails, the settlement
worker marks the settlement record `failed` with the error detail,
re-credits the validator's pending credit by the requested amount — so after
processing the message produced by a (failure-free) settlement request, the
validator's pending credit equals its value immediately before that request
— and permanently rejects the message (`Nack` without requeue). -/
theorem settlement_failure_compensates (s : Store) (q : List PayoutRequest)
    (vid : String) (f : RequestFailures) (v : Validator) (o : WorkerOracle)
    (e : String)
    (hv : findValidatorById s vid = some v) (hpos : 0 < v.pendingPayouts)
    (hp : f.publishFails = false) (hu : f.updateFails = false)
    (hc : f.commitFails = false)
    (hcr : o.createRecordFails = false)
    (htr : o.transferResult = .error e)
    (hfresh : findPayoutTx s o.recordId = none) :
    (requestPayout s q vid f).2.1 = q ++ [⟨v.id, v.pendingPayouts, v.publicKey⟩]
    ∧ findValidatorById
        (processPayoutRequest (requestPayout s q vid f).1
          (some ⟨v.id, v.pendingPayouts, v.publicKey⟩) o).1 vid = some v
    ∧ findPayoutTx
        (processPayoutRequest (requestPayout s q vid f).1
          (some ⟨v.id, v.pendingPayouts, v.publicKey⟩) o).1 o.recordId =
        some ⟨o.recordId, v.id, v.pendingPayouts, "failed", "", e⟩
    ∧ (processPayoutRequest (requestPayout s q vid f).1
          (some ⟨v.id, v.pendingPayouts, v.publicKey⟩) o).2 = .nackDrop := by
  have hreq := requestPayout_success_eq s q vid f v hv hpos hp hu hc
  obtain ⟨i, pk, pp⟩ := v
  have hid : i = vid := findValidatorById_id s vid _ hv
  subst hid
  rw [hreq]
  refine ⟨rfl, ?_, ?_, ?_⟩
  · unfold processPayoutRequest
    rw [htr]
    simp only [hcr, Bool.false_eq_true, if_false]
    rw [findValidatorById_creditValidator, findValidatorById_updatePayoutTx,
        findValidatorById_insertPayoutTx, findValidatorById_setPendingPayouts, hv]
    simp
  · unfold processPayoutRequest
    rw [htr]
    simp only [hcr, Bool.false_eq_true, if_false]
    rw [findPayoutTx_creditValidator, findPayoutTx_updatePayoutTx]
    rw [findPayoutTx_insertPayoutTx_fresh _ _ _ rfl hfresh]
    simp
  · unfold processPayoutRequest
    rw [htr]
    simp [hcr]

/-- Witness for C2: validator with credit 7, transfer fails with "netdown";
the credit is restored to 7, the record is failed, the message dropped. -/
theorem settlement_failure_compensates_witness :
    findValidatorById ⟨[⟨"v1", "pk1", 7⟩], [], []⟩ "v1" = some ⟨"v1", "pk1", 7⟩ ∧
    ((requestPayout ⟨[⟨"v1", "pk1", 7⟩], [], []⟩ [] "v1" ⟨false, false, false⟩).2.1 =
        [⟨"v1", 7, "pk1"⟩]
     ∧ findValidatorById
        (processPayoutRequest
          (requestPayout ⟨[⟨"v1", "pk1", 7⟩], [], []⟩ [] "v1" ⟨false, false, false⟩).1
          (some ⟨"v1", 7, "pk1"⟩) ⟨"rec1", false, .error "netdown", []⟩).1 "v1" =
        some ⟨"v1", "pk1", 7⟩
     ∧ findPayoutTx
        (processPayoutRequest
          (requestPayout ⟨[⟨"v1", "pk1", 7⟩], [], []⟩ [] "v1" ⟨false, false, false⟩).1
          (some ⟨"v1", 7, "pk1"⟩) ⟨"rec1", false, .error "netdown", []⟩).1 "rec1" =
        some ⟨"rec1", "v1", 7, "failed", "", "netdown"⟩
     ∧ (processPayoutRequest
          (requestPayout ⟨[⟨"v1", "pk1", 7⟩], [], []⟩ [] "v1" ⟨false, false, false⟩).1
          (some ⟨"v1", 7, "pk1"⟩) ⟨"rec1", false, .error "netdown", []⟩).2 = .nackDrop) :=
  ⟨by decide,
   settlement_failure_compensates _ _ _ _ ⟨"v1", "pk1", 7⟩
     ⟨"rec1", false, .error "netdown", []⟩ "netdown"
     (by decide) (by decide) (by decide) (by decide) (by decide) (by decide)
     rfl (by decide)⟩

/-- **C5.**  When the transfer was submitted but finality polling fails —
it runs out of observations before the 30-second deadline (timeout) or
observes an on-chain failure — the worker marks the settlement record
`failed` with the external transaction signature retained, permanently
rejects the message (`Nack` without requeue), and does not touch any
validator's pending balance. -/
theorem settlement_confirmation_failure (s : Store) (req : PayoutRequest)
    (o : WorkerOracle) (sig : String)
    (hcr : o.createRecordFails = false)
    (htr : o.transferResult = .ok sig)
    (hfail : (waitForConfirmation o.polls).1 = false)
    (hfresh : findPayoutTx s o.recordId = none) :
    (processPayoutRequest s (some req) o).1.validators = s.validators
    ∧ findPayoutTx (processPayoutRequest s (some req) o).1 o.recordId =
        some ⟨o.recordId, req.validatorId, req.amount, "failed", sig,
              "Transaction confirmation timeout"⟩
    ∧ (processPayoutRequest s (some req) o).2 = .nackDrop := by
  have hcond : ((waitForConfirmation o.polls).2.isSome
      || !(waitForConfirmation o.polls).1) = true := by
    rw [hfail]
    simp
  unfold processPayoutRequest
  rw [htr]
  simp only [hcr, Bool.false_eq_true, if_false, hcond, if_true]
  refine ⟨rfl, ?_, trivial⟩
  rw [findPayoutTx_updatePayoutTx, findPayoutTx_insertPayoutTx_fresh _ _ _ rfl hfresh]
  simp

/-! ### C3, C10, C7 — the validate callback and credit accumulation -/

theorem runValidateCallback_success (wid pk tid : String)
    (payload : ValidateIncoming) (s : Store) :
    runValidateCallback wid pk tid payload noTickFailures s =
      creditValidator
        (insertTick s ⟨tid, wid, payload.validatorId, payload.status, payload.latency⟩)
        payload.validatorId costPerValidation := by
  unfold runValidateCallback noTickFailures
  simp

theorem runValidateCallback_success_lookup (wid pk tid : String)
    (payload : ValidateIncoming) (s : Store) (v : Validator)
    (hv : findValidatorById s payload.validatorId = some v) :
    findValidatorById (runValidateCallback wid pk tid payload noTickFailures s)
        payload.validatorId =
      some { v with pendingPayouts := v.pendingPayouts + costPerValidation } := by
  rw [runValidateCallback_success, findValidatorById_creditValidator,
      findValidatorById_insertTick, hv]
  have hid : v.id = payload.validatorId := findValidatorById_id _ _ _ hv
  simp [hid]

/-- **C3.**  The probe-reply handler (`createValidateCallback`'s closure)
runs one database transaction: it either inserts exactly one tick row and
adds the fixed per-check reward to the reply's validator in a single
committed unit, or — when the tick insert, the payout update or the commit
fails — rolls back and changes nothing, so no tick exists without its credit
increment and no such increment exists without its tick. -/
theorem validateCallback_atomic (wid pk tid : String) (payload : ValidateIncoming)
    (f : TickTxFailures) (s : Store) :
    runValidateCallback wid pk tid payload f s =
      creditValidator
        (insertTick s ⟨tid, wid, payload.validatorId, payload.status, payload.latency⟩)
        payload.validatorId costPerValidation
    ∨ runValidateCallback wid pk tid payload f s = s := by
  unfold runValidateCallback
  by_cases h : (f.createTickFails || f.updatePayoutsFails || f.commitFails) = true
  · right
    rw [if_pos h]
  · left
    rw [if_neg h]

/-- **C10.**  The validator that gets the tick row and the credit is the
`validatorId` carried in the reply payload, not the identity for which the
callback was registered: the result does not depend on the registered public
key at all, the inserted tick names `payload.validatorId`, the credit lands
on `payload.validatorId`, and every other validator row is untouched. -/
theorem validateCallback_credits_payload_validator (wid pk pk' tid : String)
    (payload : ValidateIncoming) (s : Store) (v : Validator)
    (hv : findValidatorById s payload.validatorId = some v) :
    runValidateCallback wid pk tid payload noTickFailures s =
      runValidateCallback wid pk' tid payload noTickFailures s
    ∧ (runValidateCallback wid pk tid payload noTickFailures s).ticks =
        s.ticks ++ [⟨tid, wid, payload.validatorId, payload.status, payload.latency⟩]
    ∧ findValidatorById (runValidateCallback wid pk tid payload noTickFailures s)
          payload.validatorId =
        some { v with pendingPayouts := v.pendingPayouts + costPerValidation }
    ∧ ∀ other : String, other ≠ payload.validatorId →
        findValidatorById (runValidateCallback wid pk tid payload noTickFailures s)
            other =
          findValidatorById s other := by
  refine ⟨?_, ?_, runValidateCallback_success_lookup _ _ _ _ _ _ hv, ?_⟩
  · rw [runValidateCallback_success, runValidateCallback_success]
  · rw [runValidateCallback_success]
    rfl
  · intro other hne
    rw [runValidateCallback_success, findValidatorById_creditValidator,
        findValidatorById_insertTick]
    cases hfind : findValidatorById s other with
    | none => simp
    | some u =>
        have hu : u.id = other := findValidatorById_id _ _ _ hfind
        simp [hu, hne]

/-- Witness for C10: the callback registered for public key "pkA" handles a
reply naming validator "v2"; "v2" is credited and "v1" is untouched. -/
theorem validateCallback_credits_payload_validator_witness :
    findValidatorById ⟨[⟨"v1", "pkA", 3⟩, ⟨"v2", "pkB", 4⟩], [], []⟩ "v2" =
      some ⟨"v2", "pkB", 4⟩ ∧
    (runValidateCallback "w1" "pkA" "t1" ⟨0, "Good", 120, "v2", "w1", "sig"⟩
        noTickFailures ⟨[⟨"v1", "pkA", 3⟩, ⟨"v2", "pkB", 4⟩], [], []⟩ =
      runValidateCallback "w1" "pkZ" "t1" ⟨0, "Good", 120, "v2", "w1", "sig"⟩
        noTickFailures ⟨[⟨"v1", "pkA", 3⟩, ⟨"v2", "pkB", 4⟩], [], []⟩
     ∧ (runValidateCallback "w1" "pkA" "t1" ⟨0, "Good", 120, "v2", "w1", "sig"⟩
          noTickFailures ⟨[⟨"v1", "pkA", 3⟩, ⟨"v2", "pkB", 4⟩], [], []⟩).ticks =
        [⟨"t1", "w1", "v2", "Good", 120⟩]
     ∧ findValidatorById
          (runValidateCallback "w1" "pkA" "t1" ⟨0, "Good", 120, "v2", "w1", "sig"⟩
            noTickFailures ⟨[⟨"v1", "pkA", 3⟩, ⟨"v2", "pkB", 4⟩], [], []⟩) "v2" =
        some ⟨"v2", "pkB", 4 + costPerValidation⟩
     ∧ ∀ other : String, other ≠ "v2" →
        findValidatorById
            (runValidateCallback "w1" "pkA" "t1" ⟨0, "Good", 120, "v2", "w1", "sig"⟩
              noTickFailures ⟨[⟨"v1", "pkA", 3⟩, ⟨"v2", "pkB", 4⟩], [], []⟩) other =
          findValidatorById ⟨[⟨"v1", "pkA", 3⟩, ⟨"v2", "pkB", 4⟩], [], []⟩ other) :=
  ⟨by decide,
   validateCallback_credits_payload_validator "w1" "pkA" "pkZ" "t1"
     ⟨0, "Good", 120, "v2", "w1", "sig"⟩ _ ⟨"v2", "pkB", 4⟩ (by decide)⟩

theorem processReplies_credit (events : List ReplyEvent) (vid : String) :
    ∀ (s : Store) (v : Validator),
      findValidatorById s vid = some v →
      (∀ e ∈ events, e.payload.validatorId = vid) →
      findValidatorById (processReplies s events) vid =
        some { v with pendingPayouts :=
                 v.pendingPayouts + costPerValidation * events.length } := by
  induction events with
  | nil =>
      intro s v hv _
      obtain ⟨i, pk, pp⟩ := v
      simpa using hv
  | cons e rest ih =>
      intro s v hv hall
      have hevid : e.payload.validatorId = vid := hall e (by simp)
      have hstep := runValidateCallback_success_lookup e.websiteId e.registeredPk
        e.tickId e.payload s v (by rw [hevid]; exact hv)
      rw [hevid] at hstep
      have hrest := ih
        (runValidateCallback e.websiteId e.registeredPk e.tickId e.payload
          noTickFailures s)
        { v with pendingPayouts := v.pendingPayouts + costPerValidation }
        hstep (fun e' he' => hall e' (by simp [he']))
      show findValidatorById
          (processReplies
            (runValidateCallback e.websiteId e.registeredPk e.tickId e.payload
              noTickFailures s) rest) vid = _
      rw [hrest]
      obtain ⟨i, pk, pp⟩ := v
      simp only [Option.some.injEq, Validator.mk.injEq, true_and, List.length_cons]
      push_cast
      ring

/-- **C7.**  Starting from zero pending credit, after any sequence of `N`
successfully recorded probe results whose replies name this validator (and
no settlement), the validator's pending credit equals
`N * COST_PER_VALIDATION` (100 lamports per check). -/
theorem pending_credit_linear (events : List ReplyEvent) (vid : String)
    (s : Store) (v : Validator)
    (hv : findValidatorById s vid = some v) (h0 : v.pendingPayouts = 0)
    (hall : ∀ e ∈ events, e.payload.validatorId = vid) :
    findValidatorById (processReplies s events) vid =
      some { v with pendingPayouts := costPerValidation * events.length } := by
  have h := processReplies_credit events vid s v hv hall
  rw [h0] at h
  simpa using h

/-- Witness for C7: three Good replies for "v1" starting from credit 0 give
`3 * 100 = 300`. -/
theorem pending_credit_linear_witness :
    findValidatorById ⟨[⟨"v1", "pk1", 0⟩], [], []⟩ "v1" = some ⟨"v1", "pk1", 0⟩ ∧
    (⟨"v1", "pk1", 0⟩ : Validator).pendingPayouts = 0 ∧
    findValidatorById
        (processReplies ⟨[⟨"v1", "pk1", 0⟩], [], []⟩
          [⟨"w1", "pk1", "t1", ⟨0, "Good", 10, "v1", "w1", "s0"⟩⟩,
           ⟨"w1", "pk1", "t2", ⟨1, "Bad", 20, "v1", "w1", "s1"⟩⟩,
           ⟨"w2", "pk1", "t3", ⟨2, "Good", 30, "v1", "w2", "s2"⟩⟩]) "v1" =
      some ⟨"v1", "pk1", costPerValidation * (3 : ℕ)⟩ :=
  ⟨by decide, by decide,
   pending_credit_linear
     [⟨"w1", "pk1", "t1", ⟨0, "Good", 10, "v1", "w1", "s0"⟩⟩,
      ⟨"w1", "pk1", "t2", ⟨1, "Bad", 20, "v1", "w1", "s1"⟩⟩,
      ⟨"w2", "pk1", "t3", ⟨2, "Good", 30, "v1", "w2", "s2"⟩⟩]
     "v1" _ ⟨"v1", "pk1", 0⟩ (by decide) (by decide) (by decide)⟩

/-! ### C4 — one-shot callback correlation -/

theorem lookupCallback_removeCallback (t : CallbackTable) (cid : Nat) :
    lookupCallback (removeCallback t cid) cid = none := by
  unfold lookupCallback removeCallback
  have h : (t.filter (fun e => !(e.1 == cid))).find? (fun e => e.1 == cid) = none := by
    rw [List.find?_eq_none]
    intro x hx
    have hmem := (List.mem_filter.mp hx).2
    simpa using hmem
  simp [h]

/-- **C4.**  If a handler is registered under the reply's correlation id,
processing the reply invokes that handler exactly once and deletes the id
from the callback table, so any later reply carrying the same id is a no-op
that invokes nothing; and processing a reply whose correlation id has no
registered handler changes nothing and invokes nothing. -/
theorem handleValidate_one_shot (h : HubState) (payload : ValidateIncoming)
    (reg : CallbackReg) (tid : String) (f : TickTxFailures)
    (hreg : lookupCallback h.callbacks payload.callbackId = some reg) :
    (handleValidate h payload tid f).2 = [reg]
    ∧ (handleValidate h payload tid f).1.store =
        runValidateCallback reg.websiteId reg.validatorPublicKey tid payload f h.store
    ∧ lookupCallback (handleValidate h payload tid f).1.callbacks
        payload.callbackId = none
    ∧ (∀ (payload' : ValidateIncoming) (tid' : String) (f' : TickTxFailures),
        payload'.callbackId = payload.callbackId →
        handleValidate (handleValidate h payload tid f).1 payload' tid' f' =
          ((handleValidate h payload tid f).1, []))
    ∧ (∀ (h' : HubState) (payload' : ValidateIncoming) (tid' : String)
          (f' : TickTxFailures),
        lookupCallback h'.callbacks payload'.callbackId = none →
        handleValidate h' payload' tid' f' = (h', [])) := by
  have hfst : (handleValidate h payload tid f).1 =
      ⟨removeCallback h.callbacks payload.callbackId,
       runValidateCallback reg.websiteId reg.validatorPublicKey tid payload f h.store⟩ := by
    unfold handleValidate
    rw [hreg]
  have hnone : ∀ (h' : HubState) (payload' : ValidateIncoming) (tid' : String)
      (f' : TickTxFailures),
      lookupCallback h'.callbacks payload'.callbackId = none →
      handleValidate h' payload' tid' f' = (h', []) := by
    intro h' payload' tid' f' hmiss
    unfold handleValidate
    rw [hmiss]
  refine ⟨?_, ?_, ?_, ?_, hnone⟩
  · unfold handleValidate
    rw [hreg]
  · rw [hfst]
  · rw [hfst]
    exact lookupCallback_removeCallback _ _
  · intro payload' tid' f' hcid
    refine hnone _ _ _ _ ?_
    rw [hfst, hcid]
    exact lookupCallback_removeCallback _ _

/-- Witness for C4: a hub with the single registration `0 ↦ (w1, pk1)`. -/
theorem handleValidate_one_shot_witness :
    lookupCallback ([(0, ⟨"w1", "pk1"⟩)] : CallbackTable) 0 = some ⟨"w1", "pk1"⟩ ∧
    ((handleValidate ⟨[(0, ⟨"w1", "pk1"⟩)], ⟨[⟨"v1", "pk1", 0⟩], [], []⟩⟩
        ⟨0, "Good", 120, "v1", "w1", "sig"⟩ "t1" noTickFailures).2 = [⟨"w1", "pk1"⟩]
     ∧ (handleValidate ⟨[(0, ⟨"w1", "pk1"⟩)], ⟨[⟨"v1", "pk1", 0⟩], [], []⟩⟩
          ⟨0, "Good", 120, "v1", "w1", "sig"⟩ "t1" noTickFailures).1.store =
        runValidateCallback "w1" "pk1" "t1" ⟨0, "Good", 120, "v1", "w1", "sig"⟩
          noTickFailures ⟨[⟨"v1", "pk1", 0⟩], [], []⟩
     ∧ lookupCallback
          (handleValidate ⟨[(0, ⟨"w1", "pk1"⟩)], ⟨[⟨"v1", "pk1", 0⟩], [], []⟩⟩
            ⟨0, "Good", 120, "v1", "w1", "sig"⟩ "t1" noTickFailures).1.callbacks 0 =
        none
     ∧ (∀ (payload' : ValidateIncoming) (tid' : String) (f' : TickTxFailures),
          payload'.callbackId = 0 →
          handleValidate
              (handleValidate ⟨[(0, ⟨"w1", "pk1"⟩)], ⟨[⟨"v1", "pk1", 0⟩], [], []⟩⟩
                ⟨0, "Good", 120, "v1", "w1", "sig"⟩ "t1" noTickFailures).1
              payload' tid' f' =
            ((handleValidate ⟨[(0, ⟨"w1", "pk1"⟩)], ⟨[⟨"v1", "pk1", 0⟩], [], []⟩⟩
                ⟨0, "Good", 120, "v1", "w1", "sig"⟩ "t1" noTickFailures).1, []))
     ∧ (∀ (h' : HubState) (payload' : ValidateIncoming) (tid' : String)
           (f' : TickTxFailures),
          lookupCallback h'.callbacks payload'.callbackId = none →
          handleValidate h' payload' tid' f' = (h', []))) :=
  ⟨by decide,
   handleValidate_one_shot ⟨[(0, ⟨"w1", "pk1"⟩)], ⟨[⟨"v1", "pk1", 0⟩], [], []⟩⟩
     ⟨0, "Good", 120, "v1", "w1", "sig"⟩ ⟨"w1", "pk1"⟩ "t1" noTickFailures
     (by decide)⟩

/-! ### C8 — the validator agent's probe classification -/

theorem validateWebsite_status_eq (validatorId : String) (task : ValidateTask)
    (resp : Option Nat) (elapsedMs : Nat) (signature : String) :
    (validateWebsite validatorId task resp elapsedMs signature).status =
      (if resp = some 200 then "Good" else "Bad") := by
  unfold validateWebsite
  cases resp with
  | none => simp
  | some code =>
      by_cases hc : code = 200
      · simp [hc]
      · simp [hc]

/-- **C8.**  The agent's probe handler classifies the outcome "Good" iff the
HTTP GET returned a response with status code 200 (any transport error, and
in particular the 10-second client timeout firing, yields `resp = none` and
hence "Bad"), and it reports the elapsed wall time in milliseconds as a
non-negative latency.  Under the client-timeout contract (a response is only
obtained within `httpClientTimeoutMs`), a "Good" outcome happened within the
timeout. -/
theorem validateWebsite_classification (validatorId : String) (task : ValidateTask)
    (resp : Option Nat) (elapsedMs : Nat) (signature : String)
    (htimeout : resp ≠ none → elapsedMs ≤ httpClientTimeoutMs) :
    ((validateWebsite validatorId task resp elapsedMs signature).status = "Good"
      ↔ resp = some 200)
    ∧ ((validateWebsite validatorId task resp elapsedMs signature).status = "Good"
       ∨ (validateWebsite validatorId task resp elapsedMs signature).status = "Bad")
    ∧ (validateWebsite validatorId task resp elapsedMs signature).latency =
        (elapsedMs : ℚ)
    ∧ 0 ≤ (validateWebsite validatorId task resp elapsedMs signature).latency
    ∧ ((validateWebsite validatorId task resp elapsedMs signature).status = "Good"
       → elapsedMs ≤ httpClientTimeoutMs) := by
  have hstat := validateWebsite_status_eq validatorId task resp elapsedMs signature
  refine ⟨?_, ?_, rfl, ?_, ?_⟩
  · rw [hstat]
    by_cases hr : resp = some 200
    · simp [hr]
    · simp [hr]
  · rw [hstat]
    by_cases hr : resp = some 200
    · left
      simp [hr]
    · right
      simp [hr]
  · show (0 : ℚ) ≤ (elapsedMs : ℚ)
    exact_mod_cast Nat.zero_le elapsedMs
  · rw [hstat]
    by_cases hr : resp = some 200
    · intro _
      refine htimeout ?_
      rw [hr]
      simp
    · intro hcontra
      rw [if_neg hr] at hcontra
      exact absurd hcontra (by decide)

/-- Witness for C8: a 200 response after 120 ms is "Good" with latency 120. -/
theorem validateWebsite_classification_witness :
    ((some 200 : Option Nat) ≠ none → 120 ≤ httpClientTimeoutMs) ∧
    (((validateWebsite "v1" ⟨"u", 0, "w1"⟩ (some 200) 120 "sig").status = "Good"
      ↔ (some 200 : Option Nat) = some 200)
    ∧ ((validateWebsite "v1" ⟨"u", 0, "w1"⟩ (some 200) 120 "sig").status = "Good"
       ∨ (validateWebsite "v1" ⟨"u", 0, "w1"⟩ (some 200) 120 "sig").status = "Bad")
    ∧ (validateWebsite "v1" ⟨"u", 0, "w1"⟩ (some 200) 120 "sig").latency = ((120 : ℕ) : ℚ)
    ∧ 0 ≤ (validateWebsite "v1" ⟨"u", 0, "w1"⟩ (some 200) 120 "sig").latency
    ∧ ((validateWebsite "v1" ⟨"u", 0, "w1"⟩ (some 200) 120 "sig").status = "Good"
       → 120 ≤ httpClientTimeoutMs)) :=
  ⟨by decide,
   validateWebsite_classification "v1" ⟨"u", 0, "w1"⟩ (some 200) 120 "sig"
     (by decide)⟩

/-- Witness for C5: an immediate timeout (no poll observations before the
deadline); the record is failed with the signature kept and no validator row
changes. -/
theorem settlement_confirmation_failure_witness :
    ((waitForConfirmation ([] : List PollStatus)).1 = false) ∧
    ((processPayoutRequest ⟨[⟨"v1", "pk1", 0⟩], [], []⟩ (some ⟨"v1", 7, "pk1"⟩)
        ⟨"rec1", false, .ok "sig1", []⟩).1.validators = [⟨"v1", "pk1", 0⟩]
     ∧ findPayoutTx (processPayoutRequest ⟨[⟨"v1", "pk1", 0⟩], [], []⟩
          (some ⟨"v1", 7, "pk1"⟩) ⟨"rec1", false, .ok "sig1", []⟩).1 "rec1" =
        some ⟨"rec1", "v1", 7, "failed", "sig1", "Transaction confirmation timeout"⟩
     ∧ (processPayoutRequest ⟨[⟨"v1", "pk1", 0⟩], [], []⟩ (some ⟨"v1", 7, "pk1"⟩)
          ⟨"rec1", false, .ok "sig1", []⟩).2 = .nackDrop) :=
  ⟨by decide,
   settlement_confirmation_failure _ ⟨"v1", 7, "pk1"⟩
     ⟨"rec1", false, .ok "sig1", []⟩ "sig1"
     (by decide) rfl (by decide) (by decide)⟩

/-! ### C9 — the dispatch loop -/

theorem isRegisterFor_register (c c' : Nat) (reg : CallbackReg) :
    isRegisterFor c (.register c' reg) = (c' == c) := rfl

theorem isRegisterFor_send (c : Nat) (vid : String) (t : ValidateTask) :
    isRegisterFor c (.send vid t) = false := rfl

theorem isSendFor_register (c c' : Nat) (reg : CallbackReg) :
    isSendFor c (.register c' reg) = false := rfl

theorem isSendFor_send (c : Nat) (vid : String) (t : ValidateTask) :
    isSendFor c (.send vid t) = (t.callbackId == c) := rfl

theorem isSendPair_register (wid vid : String) (c : Nat) (reg : CallbackReg) :
    isSendPair wid vid (.register c reg) = false := rfl

theorem isSendPair_send (wid vid v : String) (t : ValidateTask) :
    isSendPair wid vid (.send v t) = (v == vid && t.websiteId == wid) := rfl

theorem regCount_nil (c : Nat) : regCount [] c = 0 := rfl

theorem regCount_cons (e : DispatchEvent) (evs : List DispatchEvent) (c : Nat) :
    regCount (e :: evs) c = regCount evs c + (if isRegisterFor c e then 1 else 0) := by
  simp [regCount, List.countP_cons]

theorem regCount_append (l₁ l₂ : List DispatchEvent) (c : Nat) :
    regCount (l₁ ++ l₂) c = regCount l₁ c + regCount l₂ c :=
  List.countP_append _ _ _

theorem sendCount_nil (c : Nat) : sendCount [] c = 0 := rfl

theorem sendCount_cons (e : DispatchEvent) (evs : List DispatchEvent) (c : Nat) :
    sendCount (e :: evs) c = sendCount evs c + (if isSendFor c e then 1 else 0) := by
  simp [sendCount, List.countP_cons]

theorem sendCount_append (l₁ l₂ : List DispatchEvent) (c : Nat) :
    sendCount (l₁ ++ l₂) c = sendCount l₁ c + sendCount l₂ c :=
  List.countP_append _ _ _

theorem sendPairCount_cons (e : DispatchEvent) (evs : List DispatchEvent)
    (wid vid : String) :
    sendPairCount (e :: evs) wid vid =
      sendPairCount evs wid vid + (if isSendPair wid vid e then 1 else 0) := by
  simp [sendPairCount, List.countP_cons]

theorem sendPairCount_append (l₁ l₂ : List DispatchEvent) (wid vid : String) :
    sendPairCount (l₁ ++ l₂) wid vid =
      sendPairCount l₁ wid vid + sendPairCount l₂ wid vid :=
  List.countP_append _ _ _

theorem dispatchToValidators_nil (w : Website) (n : Nat) :
    dispatchToValidators w [] n = ([], n) := rfl

theorem dispatchToValidators_cons (w : Website) (v : ValidatorConnection)
    (rest : List ValidatorConnection) (n : Nat) :
    dispatchToValidators w (v :: rest) n =
      (.register n ⟨w.id, v.publicKey⟩ ::
         .send v.validatorId ⟨w.url, n, w.id⟩ ::
           (dispatchToValidators w rest (n + 1)).1,
       (dispatchToValidators w rest (n + 1)).2) := rfl

theorem dispatchToValidators_counter (w : Website) (vs : List ValidatorConnection) :
    ∀ n, (dispatchToValidators w vs n).2 = n + vs.length := by
  induction vs with
  | nil => intro n; rfl
  | cons v rest ih =>
      intro n
      rw [dispatchToValidators_cons]
      simp only [ih (n + 1), List.length_cons]
      omega

theorem regCount_dispatchToValidators (w : Website) (vs : List ValidatorConnection) :
    ∀ n c, regCount (dispatchToValidators w vs n).1 c =
      if n ≤ c ∧ c < n + vs.length then 1 else 0 := by
  induction vs with
  | nil =>
      intro n c
      rw [dispatchToValidators_nil, if_neg (by simp)]
      rfl
  | cons v rest ih =>
      intro n c
      rw [dispatchToValidators_cons]
      rw [regCount_cons, regCount_cons, ih (n + 1) c]
      simp only [isRegisterFor_register, isRegisterFor_send, Bool.false_eq_true,
        if_false, beq_iff_eq, List.length_cons, add_zero]
      split_ifs <;> omega

theorem sendCount_dispatchToValidators (w : Website) (vs : List ValidatorConnection) :
    ∀ n c, sendCount (dispatchToValidators w vs n).1 c =
      if n ≤ c ∧ c < n + vs.length then 1 else 0 := by
  induction vs with
  | nil =>
      intro n c
      rw [dispatchToValidators_nil, if_neg (by simp)]
      rfl
  | cons v rest ih =>
      intro n c
      rw [dispatchToValidators_cons]
      rw [sendCount_cons, sendCount_cons, ih (n + 1) c]
      simp only [isSendFor_register, isSendFor_send, Bool.false_eq_true,
        if_false, beq_iff_eq, List.length_cons, add_zero]
      split_ifs <;> omega

theorem sendPairCount_dispatchToValidators (w : Website)
    (vs : List ValidatorConnection) (wid vid : String) :
    ∀ n, sendPairCount (dispatchToValidators w vs n).1 wid vid =
      if w.id = wid then vs.countP (fun v => v.validatorId == vid) else 0 := by
  induction vs with
  | nil =>
      intro n
      rw [dispatchToValidators_nil]
      simp [sendPairCount]
  | cons v rest ih =>
      intro n
      rw [dispatchToValidators_cons]
      rw [sendPairCount_cons, sendPairCount_cons, ih (n + 1)]
      simp only [isSendPair_register, isSendPair_send, Bool.false_eq_true,
        if_false, add_zero, List.countP_cons]
      by_cases hw : w.id = wid
      · by_cases hv : v.validatorId = vid
        · simp [hw, hv]
        · simp [hw, hv]
      · simp [hw]

theorem take_le_dispatchToValidators (w : Website) (vs : List ValidatorConnection) :
    ∀ n m c, sendCount ((dispatchToValidators w vs n).1.take m) c ≤
      regCount ((dispatchToValidators w vs n).1.take m) c := by
  induction vs with
  | nil =>
      intro n m c
      rw [dispatchToValidators_nil]
      simp [sendCount, regCount]
  | cons v rest ih =>
      intro n m c
      rw [dispatchToValidators_cons]
      rcases m with _ | m
      · simp [sendCount, regCount]
      rcases m with _ | m
      · rw [List.take_succ_cons, List.take_zero]
        rw [sendCount_cons, regCount_cons, sendCount_nil, regCount_nil]
        simp [isSendFor_register, isRegisterFor_register]
      · rw [List.take_succ_cons, List.take_succ_cons]
        rw [sendCount_cons, sendCount_cons, regCount_cons, regCount_cons]
        have hih := ih (n + 1) m c
        simp only [isSendFor_register, isSendFor_send, isRegisterFor_register,
          isRegisterFor_send, Bool.false_eq_true, if_false, add_zero]
        split_ifs <;> omega

theorem dispatchWebsites_nil (vs : List ValidatorConnection) (n : Nat) :
    dispatchWebsites [] vs n = ([], n) := rfl

theorem dispatchWebsites_cons (w : Website) (rest : List Website)
    (vs : List ValidatorConnection) (n : Nat) :
    dispatchWebsites (w :: rest) vs n =
      ((dispatchToValidators w vs n).1 ++
         (dispatchWebsites rest vs (dispatchToValidators w vs n).2).1,
       (dispatchWebsites rest vs (dispatchToValidators w vs n).2).2) := rfl

theorem regCount_dispatchWebsites (vs : List ValidatorConnection) :
    ∀ (ws : List Website) (n c : Nat),
      regCount (dispatchWebsites ws vs n).1 c =
        if n ≤ c ∧ c < n + ws.length * vs.length then 1 else 0 := by
  intro ws
  induction ws with
  | nil =>
      intro n c
      rw [dispatchWebsites_nil, if_neg (by simp)]
      rfl
  | cons w rest ih =>
      intro n c
      rw [dispatchWebsites_cons, regCount_append,
        regCount_dispatchToValidators, dispatchToValidators_counter, ih]
      simp only [List.length_cons, Nat.succ_mul]
      split_ifs <;> omega

theorem sendCount_dispatchWebsites (vs : List ValidatorConnection) :
    ∀ (ws : List Website) (n c : Nat),
      sendCount (dispatchWebsites ws vs n).1 c =
        if n ≤ c ∧ c < n + ws.length * vs.length then 1 else 0 := by
  intro ws
  induction ws with
  | nil =>
      intro n c
      rw [dispatchWebsites_nil, if_neg (by simp)]
      rfl
  | cons w rest ih =>
      intro n c
      rw [dispatchWebsites_cons, sendCount_append,
        sendCount_dispatchToValidators, dispatchToValidators_counter, ih]
      simp only [List.length_cons, Nat.succ_mul]
      split_ifs <;> omega

theorem sendPairCount_dispatchWebsites (vs : List ValidatorConnection)
    (wid vid : String) :
    ∀ (ws : List Website) (n : Nat),
      sendPairCount (dispatchWebsites ws vs n).1 wid vid =
        ws.countP (fun w => w.id == wid) * vs.countP (fun v => v.validatorId == vid) := by
  intro ws
  induction ws with
  | nil =>
      intro n
      rw [dispatchWebsites_nil]
      simp [sendPairCount]
  | cons w rest ih =>
      intro n
      rw [dispatchWebsites_cons, sendPairCount_append,
        sendPairCount_dispatchToValidators, ih]
      rw [List.countP_cons]
      by_cases hw : w.id = wid
      · simp only [hw, if_pos rfl, beq_self_eq_true, if_true]
        ring
      · have hbeq : (w.id == wid) = false := by simp [hw]
        simp [hw, hbeq]

theorem take_le_dispatchWebsites (vs : List ValidatorConnection) :
    ∀ (ws : List Website) (n m c : Nat),
      sendCount ((dispatchWebsites ws vs n).1.take m) c ≤
        regCount ((dispatchWebsites ws vs n).1.take m) c := by
  intro ws
  induction ws with
  | nil =>
      intro n m c
      rw [dispatchWebsites_nil]
      simp [sendCount, regCount]
  | cons w rest ih =>
      intro n m c
      rw [dispatchWebsites_cons]
      rw [List.take_append_eq_append_take, sendCount_append, regCount_append]
      have h1 := take_le_dispatchToValidators w vs n m c
      have h2 := ih (dispatchToValidators w vs n).2
        (m - (dispatchToValidators w vs n).1.length) c
      omega

theorem dispatchToValidators_shape (w : Website) (vs : List ValidatorConnection) :
    ∀ n, ∀ e ∈ (dispatchToValidators w vs n).1,
      ∃ v ∈ vs, ∃ c : Nat,
        e = .register c ⟨w.id, v.publicKey⟩ ∨
        e = .send v.validatorId ⟨w.url, c, w.id⟩ := by
  induction vs with
  | nil =>
      intro n e he
      rw [dispatchToValidators_nil] at he
      simp at he
  | cons v rest ih =>
      intro n e he
      rw [dispatchToValidators_cons] at he
      simp only [List.mem_cons] at he
      rcases he with he | he | he
      · exact ⟨v, by simp, n, Or.inl he⟩
      · exact ⟨v, by simp, n, Or.inr he⟩
      · obtain ⟨v', hv', c, hc⟩ := ih (n + 1) e he
        exact ⟨v', by simp [hv'], c, hc⟩

theorem dispatchWebsites_shape (vs : List ValidatorConnection) :
    ∀ (ws : List Website) (n : Nat), ∀ e ∈ (dispatchWebsites ws vs n).1,
      ∃ w ∈ ws, ∃ v ∈ vs, ∃ c : Nat,
        e = .register c ⟨w.id, v.publicKey⟩ ∨
        e = .send v.validatorId ⟨w.url, c, w.id⟩ := by
  intro ws
  induction ws with
  | nil =>
      intro n e he
      rw [dispatchWebsites_nil] at he
      simp at he
  | cons w rest ih =>
      intro n e he
      rw [dispatchWebsites_cons] at he
      rcases List.mem_append.mp he with he | he
      · obtain ⟨v, hv, c, hc⟩ := dispatchToValidators_shape w vs n e he
        exact ⟨w, by simp, v, hv, c, hc⟩
      · obtain ⟨w', hw', v, hv, c, hc⟩ := ih (dispatchToValidators w vs n).2 e he
        exact ⟨w', by simp [hw'], v, hv, c, hc⟩

theorem countP_eq_one_of_nodup_mem {α : Type} (l : List α) (g : α → String) (a : α)
    (hnd : (l.map g).Nodup) (ha : a ∈ l) :
    l.countP (fun x => g x == g a) = 1 := by
  have h1 : l.countP (fun x => g x == g a) = (l.map g).count (g a) := by
    rw [List.count_eq_countP, List.countP_map]
    rfl
  rw [h1]
  exact List.count_eq_one_of_mem hnd (List.mem_map_of_mem g ha)

/-- **C9.**  In one dispatch cycle over the active (non-disabled) targets
and the snapshot of connected validators, with distinct target ids and
distinct validator ids: (1) each (active target, validator) pair gets
exactly one probe-task send; (2) every correlation id is registered at most
once; (3) exactly as many sends as registrations carry each correlation id
(so every sent task's fresh id has exactly one registration and every
registration is used by exactly one send); (4) in every prefix of the cycle
the registration for an id precedes the send carrying it; (5) every event
concerns an active target and a connected validator, a send carrying the
target's url and id to that validator; (6) if the active-target set or the
validator set is empty the cycle performs no events at all. -/
theorem dispatch_cycle_spec (websites : List Website)
    (vs : List ValidatorConnection) (n : Nat)
    (hw : ((websites.filter (fun w => !w.disabled)).map Website.id).Nodup)
    (hv : (vs.map ValidatorConnection.validatorId).Nodup) :
    (∀ w ∈ websites.filter (fun w => !w.disabled), ∀ v ∈ vs,
        sendPairCount (dispatchCycle websites vs n).1 w.id v.validatorId = 1)
    ∧ (∀ c, regCount (dispatchCycle websites vs n).1 c ≤ 1)
    ∧ (∀ c, sendCount (dispatchCycle websites vs n).1 c =
        regCount (dispatchCycle websites vs n).1 c)
    ∧ (∀ m c, sendCount ((dispatchCycle websites vs n).1.take m) c ≤
        regCount ((dispatchCycle websites vs n).1.take m) c)
    ∧ (∀ e ∈ (dispatchCycle websites vs n).1,
        ∃ w ∈ websites.filter (fun w => !w.disabled), ∃ v ∈ vs, ∃ c : Nat,
          e = .register c ⟨w.id, v.publicKey⟩ ∨
          e = .send v.validatorId ⟨w.url, c, w.id⟩)
    ∧ (websites.filter (fun w => !w.disabled) = [] ∨ vs = [] →
        (dispatchCycle websites vs n).1 = []) := by
  by_cases hA : (websites.filter (fun w => !w.disabled)).isEmpty = true
  · have hAe : websites.filter (fun w => !w.disabled) = [] :=
      List.isEmpty_iff.mp hA
    have hcyc : (dispatchCycle websites vs n).1 = [] := by
      unfold dispatchCycle
      rw [if_pos hA]
    rw [hcyc]
    refine ⟨?_, ?_, ?_, ?_, ?_, fun _ => rfl⟩
    · intro w hwmem
      rw [hAe] at hwmem
      simp at hwmem
    · intro c; simp [regCount]
    · intro c; rfl
    · intro m c; simp [sendCount, regCount]
    · intro e he; simp at he
  · by_cases hV : vs.isEmpty = true
    · have hVe : vs = [] := List.isEmpty_iff.mp hV
      have hcyc : (dispatchCycle websites vs n).1 = [] := by
        unfold dispatchCycle
        rw [if_neg (by simp [hA]), if_pos hV]
      rw [hcyc]
      refine ⟨?_, ?_, ?_, ?_, ?_, fun _ => rfl⟩
      · intro w hwmem v hvmem
        rw [hVe] at hvmem
        simp at hvmem
      · intro c; simp [regCount]
      · intro c; rfl
      · intro m c; simp [sendCount, regCount]
      · intro e he; simp at he
    · have hcyc : dispatchCycle websites vs n =
          dispatchWebsites (websites.filter (fun w => !w.disabled)) vs n := by
        unfold dispatchCycle
        rw [if_neg (by simp [hA]), if_neg (by simp [hV])]
      rw [hcyc]
      refine ⟨?_, ?_, ?_, take_le_dispatchWebsites vs _ n,
        dispatchWebsites_shape vs _ n, ?_⟩
      · intro w hwmem v hvmem
        rw [sendPairCount_dispatchWebsites]
        rw [countP_eq_one_of_nodup_mem _ Website.id w hw hwmem,
          countP_eq_one_of_nodup_mem _ ValidatorConnection.validatorId v hv hvmem]
      · intro c
        rw [regCount_dispatchWebsites]
        split_ifs <;> omega
      · intro c
        rw [regCount_dispatchWebsites, sendCount_dispatchWebsites]
      · intro hemp
        rcases hemp with hemp | hemp
        · exact absurd (List.isEmpty_iff.mpr hemp) hA
        · exact absurd (List.isEmpty_iff.mpr hemp) hV

/-- Witness for C9: one active and one disabled target, one connected
validator, counter starting at 0. -/
theorem dispatch_cycle_spec_witness :
    (((([⟨"w1", "u1", false⟩, ⟨"w2", "u2", true⟩] : List Website).filter
        (fun w => !w.disabled)).map Website.id).Nodup
     ∧ (([⟨"va", "pka"⟩] : List ValidatorConnection).map
          ValidatorConnection.validatorId).Nodup)
    ∧ ((∀ w ∈ ([⟨"w1", "u1", false⟩, ⟨"w2", "u2", true⟩] : List Website).filter
            (fun w => !w.disabled),
          ∀ v ∈ ([⟨"va", "pka"⟩] : List ValidatorConnection),
          sendPairCount
            (dispatchCycle [⟨"w1", "u1", false⟩, ⟨"w2", "u2", true⟩]
              [⟨"va", "pka"⟩] 0).1 w.id v.validatorId = 1)
       ∧ (∀ c, regCount
            (dispatchCycle [⟨"w1", "u1", false⟩, ⟨"w2", "u2", true⟩]
              [⟨"va", "pka"⟩] 0).1 c ≤ 1)
       ∧ (∀ c, sendCount
            (dispatchCycle [⟨"w1", "u1", false⟩, ⟨"w2", "u2", true⟩]
              [⟨"va", "pka"⟩] 0).1 c =
           regCount
            (dispatchCycle [⟨"w1", "u1", false⟩, ⟨"w2", "u2", true⟩]
              [⟨"va", "pka"⟩] 0).1 c)
       ∧ (∀ m c, sendCount
            ((dispatchCycle [⟨"w1", "u1", false⟩, ⟨"w2", "u2", true⟩]
              [⟨"va", "pka"⟩] 0).1.take m) c ≤
           regCount
            ((dispatchCycle [⟨"w1", "u1", false⟩, ⟨"w2", "u2", true⟩]
              [⟨"va", "pka"⟩] 0).1.take m) c)
       ∧ (∀ e ∈ (dispatchCycle [⟨"w1", "u1", false⟩, ⟨"w2", "u2", true⟩]
              [⟨"va", "pka"⟩] 0).1,
            ∃ w ∈ ([⟨"w1", "u1", false⟩, ⟨"w2", "u2", true⟩] : List Website).filter
                (fun w => !w.disabled),
            ∃ v ∈ ([⟨"va", "pka"⟩] : List ValidatorConnection), ∃ c : Nat,
              e = .register c ⟨w.id, v.publicKey⟩ ∨
              e = .send v.validatorId ⟨w.url, c, w.id⟩)
       ∧ (([⟨"w1", "u1", false⟩, ⟨"w2", "u2", true⟩] : List Website).filter
            (fun w => !w.disabled) = [] ∨
          ([⟨"va", "pka"⟩] : List ValidatorConnection) = [] →
          (dispatchCycle [⟨"w1", "u1", false⟩, ⟨"w2", "u2", true⟩]
            [⟨"va", "pka"⟩] 0).1 = [])) :=
  ⟨⟨by decide, by decide⟩,
   dispatch_cycle_spec [⟨"w1", "u1", false⟩, ⟨"w2", "u2", true⟩]
     [⟨"va", "pka"⟩] 0 (by decide) (by decide)⟩

end Uptime
